import Mathlib

/-!
Shallow embedding of `src/lib.rs` of the southeast-nacos crate: a pipeline
that reads settings from the environment, optionally decrypts the password
via AWS KMS, fetches a configuration document from Nacos, validates its
identity and MD5 checksum, and parses it.

External collaborators (the KMS client, the Nacos config service, the serde
JSON parser) are modelled as oracle parameters; everything the repository's
own code does (control flow, string manipulation, base64 decoding semantics
of the `STANDARD` engine, UTF-8 validation semantics of
`String::from_utf8`, the MD5 recomputation, error construction) is embedded
directly. Network-touching steps additionally record an `Effect` so that
"no network call happens before X" properties are expressible.
-/

set_option autoImplicit false
set_option maxRecDepth 100000

namespace Nacos

/-- Substring containment on character lists: `needle` occurs contiguously
inside `hay`. -/
def contains_sub (needle hay : List Char) : Prop :=
  ∃ l r, hay = l ++ needle ++ r

theorem string_data_append (s t : String) : (s ++ t).data = s.data ++ t.data := by
  cases s; cases t; rfl

/-- The error enum `NacosError` from `src/lib.rs` lines 13-22. Each
constructor carries the message string built at the error site. -/
inductive NacosError where
  | EnvVarError (msg : String)
  | NacosConnectionError (msg : String)
  | NacosConfigError (msg : String)
  | KmsError (msg : String)
  | ConfigParseError (msg : String)
  | Base64DecodeError (msg : String)
  | Utf8Error (msg : String)
  deriving DecidableEq, Repr

/-- The `Display` impl for `NacosError` (`src/lib.rs` lines 24-36). -/
def NacosError.display : NacosError → String
  | .EnvVarError msg => "Environment variable error: " ++ msg
  | .NacosConnectionError msg => "Nacos connection error: " ++ msg
  | .NacosConfigError msg => "Nacos config error: " ++ msg
  | .KmsError msg => "AWS KMS error: " ++ msg
  | .ConfigParseError msg => "Config parsing error: " ++ msg
  | .Base64DecodeError msg => "Base64 decoding error: " ++ msg
  | .Utf8Error msg => "UTF-8 conversion error: " ++ msg

/-- Rust `str::trim_start_matches("ENC(")`: repeatedly remove the leading
occurrence of `ENC(` while the string still starts with it. -/
def stripEncLoop : List Char → List Char
  | 'E' :: 'N' :: 'C' :: '(' :: rest => stripEncLoop rest
  | s => s

/-- Rust `str::trim_end_matches(')')`: remove every trailing `)`. -/
def trimEndParen (s : List Char) : List Char :=
  ((s.reverse.dropWhile (fun c => c = ')')).reverse)

/-- The stripping on `src/lib.rs` line 110:
`password.trim_start_matches("ENC(").trim_end_matches(')')`. -/
def stripEncChars (s : List Char) : List Char :=
  trimEndParen (stripEncLoop s)

/-- String-level wrapper of `stripEncChars`. -/
def stripEncStr (s : String) : String :=
  String.mk (stripEncChars s.data)

/-- Rust `str::trim_start_matches("http://")`: repeatedly remove a leading
`http://`. Used on `src/lib.rs` line 59. -/
def stripHttpLoop : List Char → List Char
  | 'h' :: 't' :: 't' :: 'p' :: ':' :: '/' :: '/' :: rest => stripHttpLoop rest
  | s => s

/-- Rust `str::trim_start_matches("https://")`: repeatedly remove a leading
`https://`. Used on `src/lib.rs` line 59. -/
def stripHttpsLoop : List Char → List Char
  | 'h' :: 't' :: 't' :: 'p' :: 's' :: ':' :: '/' :: '/' :: rest => stripHttpsLoop rest
  | s => s

/-- The address normalization of `src/lib.rs` line 59:
`nacos_addr.trim_start_matches("http://").trim_start_matches("https://")`. -/
def normalize_addr (a : String) : String :=
  String.mk (stripHttpsLoop (stripHttpLoop a.data))

/-! ### Base64 (the `base64` crate's `general_purpose::STANDARD` engine)

Canonical, padded standard-alphabet decoding, as invoked by `get_blob`
(`src/lib.rs` lines 127-132). The error strings mirror the crate's
`DecodeError` `Display` impl. -/

/-- Value of a standard-alphabet base64 symbol, `none` for any other
character (including the padding character). -/
def b64val (c : Char) : Option Nat :=
  if 'A' ≤ c ∧ c ≤ 'Z' then some (c.toNat - 65)
  else if 'a' ≤ c ∧ c ≤ 'z' then some (c.toNat - 97 + 26)
  else if '0' ≤ c ∧ c ≤ '9' then some (c.toNat - 48 + 52)
  else if c = '+' then some 62
  else if c = '/' then some 63
  else none

/-- Display of `DecodeError::InvalidByte`. -/
def b64InvalidByte (off : Nat) (c : Char) : String :=
  "Invalid byte " ++ toString c.toNat ++ ", offset " ++ toString off ++ "."

/-- Display of `DecodeError::InvalidLastSymbol`. -/
def b64InvalidLastSymbol (off : Nat) (c : Char) : String :=
  "Invalid last symbol " ++ toString c.toNat ++ ", offset " ++ toString off ++ "."

/-- One pass of canonical padded base64 decoding over 4-symbol chunks.
`off` is the offset of the chunk's first symbol in the whole input. -/
def base64DecodeLoop (off : Nat) : List Char → Except String (List Nat)
  | [] => .ok []
  | [_] => .error ("Invalid input length: " ++ toString (off + 1))
  | [x, y] =>
    if (b64val x).isSome ∧ (b64val y).isSome then .error "Invalid padding"
    else .error (b64InvalidByte off x)
  | [x, y, z] =>
    if (b64val x).isSome ∧ (b64val y).isSome ∧ (b64val z).isSome then
      .error "Invalid padding"
    else .error (b64InvalidByte off x)
  | a :: b :: c :: d :: rest =>
    match b64val a with
    | none => .error (b64InvalidByte off a)
    | some va =>
      match b64val b with
      | none => .error (b64InvalidByte (off + 1) b)
      | some vb =>
        if rest.isEmpty then
          -- final chunk: padding permitted, trailing bits must be zero
          if c = '=' then
            if d = '=' then
              if vb % 16 = 0 then .ok [va * 4 + vb / 16]
              else .error (b64InvalidLastSymbol (off + 1) b)
            else .error (b64InvalidByte (off + 2) c)
          else
            match b64val c with
            | none => .error (b64InvalidByte (off + 2) c)
            | some vc =>
              if d = '=' then
                if vc % 4 = 0 then
                  .ok [va * 4 + vb / 16, (vb % 16) * 16 + vc / 4]
                else .error (b64InvalidLastSymbol (off + 2) c)
              else
                match b64val d with
                | none => .error (b64InvalidByte (off + 3) d)
                | some vd =>
                  .ok [va * 4 + vb / 16, (vb % 16) * 16 + vc / 4,
                       (vc % 4) * 64 + vd]
        else
          -- interior chunk: four data symbols required
          match b64val c with
          | none => .error (b64InvalidByte (off + 2) c)
          | some vc =>
            match b64val d with
            | none => .error (b64InvalidByte (off + 3) d)
            | some vd =>
              match base64DecodeLoop (off + 4) rest with
              | .error e => .error e
              | .ok bs =>
                .ok ([va * 4 + vb / 16, (vb % 16) * 16 + vc / 4,
                      (vc % 4) * 64 + vd] ++ bs)

/-- Model of `base64::engine::general_purpose::STANDARD.decode` on a character
sequence: the external decoder invoked by `get_blob`. -/
def base64Decode (s : List Char) : Except String (List Nat) :=
  base64DecodeLoop 0 s

/-! ### UTF-8 validation (Rust `String::from_utf8`)

Used by `decrypt_blob` (`src/lib.rs` lines 146-148) on the KMS plaintext
bytes. The error data `(valid_up_to, error_len)` and the display string
mirror `std`'s `Utf8Error`/`FromUtf8Error`. -/

/-- Decode a UTF-8 byte sequence into characters, failing at the first
invalid sequence with `(valid_up_to, error_len)` exactly as Rust's
`run_utf8_validation` computes them. -/
def utf8DecodeLoop (idx : Nat) : List Nat → Except (Nat × Option Nat) (List Char)
  | [] => .ok []
  | b0 :: rest =>
    if b0 < 128 then
      match utf8DecodeLoop (idx + 1) rest with
      | .error e => .error e
      | .ok cs => .ok (Char.ofNat b0 :: cs)
    else if b0 < 194 then .error (idx, some 1)
    else if b0 < 224 then
      match rest with
      | [] => .error (idx, none)
      | b1 :: rest1 =>
        if 128 ≤ b1 ∧ b1 < 192 then
          match utf8DecodeLoop (idx + 2) rest1 with
          | .error e => .error e
          | .ok cs => .ok (Char.ofNat ((b0 - 192) * 64 + (b1 - 128)) :: cs)
        else .error (idx, some 1)
    else if b0 < 240 then
      match rest with
      | [] => .error (idx, none)
      | b1 :: rest1 =>
        if (b0 = 224 ∧ 160 ≤ b1 ∧ b1 < 192) ∨
           (225 ≤ b0 ∧ b0 ≤ 236 ∧ 128 ≤ b1 ∧ b1 < 192) ∨
           (b0 = 237 ∧ 128 ≤ b1 ∧ b1 < 160) ∨
           (238 ≤ b0 ∧ b0 ≤ 239 ∧ 128 ≤ b1 ∧ b1 < 192) then
          match rest1 with
          | [] => .error (idx, none)
          | b2 :: rest2 =>
            if 128 ≤ b2 ∧ b2 < 192 then
              match utf8DecodeLoop (idx + 3) rest2 with
              | .error e => .error e
              | .ok cs =>
                .ok (Char.ofNat ((b0 - 224) * 4096 + (b1 - 128) * 64 + (b2 - 128)) :: cs)
            else .error (idx, some 2)
        else .error (idx, some 1)
    else if b0 < 245 then
      match rest with
      | [] => .error (idx, none)
      | b1 :: rest1 =>
        if (b0 = 240 ∧ 144 ≤ b1 ∧ b1 < 192) ∨
           (241 ≤ b0 ∧ b0 ≤ 243 ∧ 128 ≤ b1 ∧ b1 < 192) ∨
           (b0 = 244 ∧ 128 ≤ b1 ∧ b1 < 144) then
          match rest1 with
          | [] => .error (idx, none)
          | b2 :: rest2 =>
            if 128 ≤ b2 ∧ b2 < 192 then
              match rest2 with
              | [] => .error (idx, none)
              | b3 :: rest3 =>
                if 128 ≤ b3 ∧ b3 < 192 then
                  match utf8DecodeLoop (idx + 4) rest3 with
                  | .error e => .error e
                  | .ok cs =>
                    .ok (Char.ofNat ((b0 - 240) * 262144 + (b1 - 128) * 4096 +
                          (b2 - 128) * 64 + (b3 - 128)) :: cs)
                else .error (idx, some 3)
            else .error (idx, some 2)
        else .error (idx, some 1)
    else .error (idx, some 1)

/-- Model of `String::from_utf8` as a whole: the characters on success. -/
def utf8Decode (bytes : List Nat) : Except (Nat × Option Nat) (List Char) :=
  utf8DecodeLoop 0 bytes

/-- Display of `FromUtf8Error` (via `Utf8Error`). -/
def utf8ErrDisplay : Nat × Option Nat → String
  | (i, some n) => "invalid utf-8 sequence of " ++ toString n ++ " bytes from index " ++ toString i
  | (i, none) => "incomplete utf-8 byte sequence from index " ++ toString i

/-! ### MD5 (the `rust-crypto` `Md5` digest)

`from_nacos` recomputes the checksum with `Md5::new()`, `input_str`,
`result_str` (`src/lib.rs` lines 82-85): the standard MD5 of the content's
UTF-8 bytes, rendered as lowercase hex. Machine words are `Nat`s kept below
`2^32` by explicit reduction. -/

/-- UTF-8 encoding of one character (what `input_str` feeds the hasher). -/
def encodeChar (c : Char) : List Nat :=
  let n := c.toNat
  if n < 128 then [n]
  else if n < 2048 then [192 + n / 64, 128 + n % 64]
  else if n < 65536 then [224 + n / 4096, 128 + (n / 64) % 64, 128 + n % 64]
  else [240 + n / 262144, 128 + (n / 4096) % 64, 128 + (n / 64) % 64, 128 + n % 64]

/-- UTF-8 byte sequence of a character sequence. -/
def utf8Encode (cs : List Char) : List Nat :=
  cs.flatMap encodeChar

/-- Bitwise AND of the low `k` bits of two naturals. -/
def bandAux : Nat → Nat → Nat → Nat
  | 0, _, _ => 0
  | k + 1, x, y => (x % 2) * (y % 2) + 2 * bandAux k (x / 2) (y / 2)

/-- The 32-bit bitwise AND. -/
def band32 (x y : Nat) : Nat := bandAux 32 x y

/-- The 32-bit bitwise XOR: `x + y - 2 * (x AND y)` bit by bit. -/
def bxor32 (x y : Nat) : Nat := x + y - 2 * band32 x y

/-- The 32-bit bitwise OR: `x + y - (x AND y)` bit by bit. -/
def bor32 (x y : Nat) : Nat := x + y - band32 x y

/-- The 32-bit bitwise NOT (inputs are kept below `2^32`). -/
def bnot32 (x : Nat) : Nat := 4294967295 - x

/-- The 32-bit left rotation. -/
def rotl32 (x s : Nat) : Nat :=
  ((x % 4294967296) * 2 ^ s) % 4294967296 + (x % 4294967296) / 2 ^ (32 - s)

/-- MD5 round function F. -/
def md5F (b c d : Nat) : Nat := bor32 (band32 b c) (band32 (bnot32 b) d)

/-- MD5 round function G. -/
def md5G (b c d : Nat) : Nat := bor32 (band32 b d) (band32 c (bnot32 d))

/-- MD5 round function H. -/
def md5H (b c d : Nat) : Nat := bxor32 b (bxor32 c d)

/-- MD5 round function I. -/
def md5I (b c d : Nat) : Nat := bxor32 c (bor32 b (bnot32 d))

/-- The 64 MD5 sine-derived constants. -/
def md5K : List Nat :=
  [3614090360, 3905402710, 606105819, 3250441966, 4118548399, 1200080426,
   2821735955, 4249261313, 1770035416, 2336552879, 4294925233, 2304563134,
   1804603682, 4254626195, 2792965006, 1236535329, 4129170786, 3225465664,
   643717713, 3921069994, 3593408605, 38016083, 3634488961, 3889429448,
   568446438, 3275163606, 4107603335, 1163531501, 2850285829, 4243563512,
   1735328473, 2368359562, 4294588738, 2272392833, 1839030562, 4259657740,
   2763975236, 1272893353, 4139469664, 3200236656, 681279174, 3936430074,
   3572445317, 76029189, 3654602809, 3873151461, 530742520, 3299628645,
   4096336452, 1126891415, 2878612391, 4237533241, 1700485571, 2399980690,
   4293915773, 2240044497, 1873313359, 4264355552, 2734768916, 1309151649,
   4149444226, 3174756917, 718787259, 3951481745]

/-- The 64 MD5 per-round left-rotation amounts. -/
def md5S : List Nat :=
  [7, 12, 17, 22, 7, 12, 17, 22, 7, 12, 17, 22, 7, 12, 17, 22,
   5, 9, 14, 20, 5, 9, 14, 20, 5, 9, 14, 20, 5, 9, 14, 20,
   4, 11, 16, 23, 4, 11, 16, 23, 4, 11, 16, 23, 4, 11, 16, 23,
   6, 10, 15, 21, 6, 10, 15, 21, 6, 10, 15, 21, 6, 10, 15, 21]

/-- The `n` little-endian bytes of `v`. -/
def leBytes : Nat → Nat → List Nat
  | 0, _ => []
  | k + 1, v => v % 256 :: leBytes k (v / 256)

/-- The 16 little-endian 32-bit words of a 64-byte block. -/
def toWords : List Nat → List Nat
  | b0 :: b1 :: b2 :: b3 :: rest =>
    (b0 + 256 * b1 + 65536 * b2 + 16777216 * b3) :: toWords rest
  | _ => []

/-- One of the 64 MD5 rounds on state `(a, b, c, d)` with message words
`m`. -/
def md5Round (m : List Nat) (st : Nat × Nat × Nat × Nat) (i : Nat) :
    Nat × Nat × Nat × Nat :=
  let a := st.1
  let b := st.2.1
  let c := st.2.2.1
  let d := st.2.2.2
  let f :=
    if i < 16 then md5F b c d
    else if i < 32 then md5G b c d
    else if i < 48 then md5H b c d
    else md5I b c d
  let g :=
    if i < 16 then i
    else if i < 32 then (5 * i + 1) % 16
    else if i < 48 then (3 * i + 5) % 16
    else (7 * i) % 16
  let tmp := (a + f + md5K.getD i 0 + m.getD g 0) % 4294967296
  (d, (b + rotl32 tmp (md5S.getD i 0)) % 4294967296, b, c)

/-- Process one 64-byte block. -/
def md5Block (st : Nat × Nat × Nat × Nat) (block : List Nat) :
    Nat × Nat × Nat × Nat :=
  let m := toWords block
  let r := (List.range 64).foldl (md5Round m) st
  ((st.1 + r.1) % 4294967296, (st.2.1 + r.2.1) % 4294967296,
   (st.2.2.1 + r.2.2.1) % 4294967296, (st.2.2.2 + r.2.2.2) % 4294967296)

/-- Split a byte sequence into 64-byte blocks (structural recursion on a
fuel bound so the kernel can evaluate it). -/
def chunks64Aux : Nat → List Nat → List (List Nat)
  | 0, _ => []
  | _ + 1, [] => []
  | fuel + 1, l => l.take 64 :: chunks64Aux fuel (l.drop 64)

/-- Split a byte sequence into 64-byte blocks. -/
def chunks64 (l : List Nat) : List (List Nat) :=
  chunks64Aux l.length l

/-- MD5 padding: `0x80`, zeros to 56 mod 64, then the 64-bit little-endian
bit length. -/
def md5Pad (bytes : List Nat) : List Nat :=
  bytes ++ [128] ++ List.replicate ((119 - bytes.length % 64) % 64) 0 ++
    leBytes 8 ((bytes.length * 8) % 18446744073709551616)

/-- The 16-byte MD5 digest of a byte sequence. -/
def md5Bytes (bytes : List Nat) : List Nat :=
  let st := (chunks64 (md5Pad bytes)).foldl md5Block
    (1732584193, 4023233417, 2562383102, 271733878)
  leBytes 4 st.1 ++ leBytes 4 st.2.1 ++ leBytes 4 st.2.2.1 ++ leBytes 4 st.2.2.2

/-- Lowercase hex digit of `n % 16`. -/
def hexDigitChar (n : Nat) : Char :=
  "0123456789abcdef".data.getD (n % 16) '0'

/-- Two lowercase hex digits of a byte. -/
def byteHex (b : Nat) : List Char :=
  [hexDigitChar (b / 16), hexDigitChar b]

/-- Model of `result_str` of the `rust-crypto` `Md5` after `input_str s`: the
lowercase-hex MD5 of `s`'s UTF-8 bytes. -/
def md5_hex (s : String) : String :=
  String.mk ((md5Bytes (utf8Encode s.data)).flatMap byteHex)

/-! ### The pipeline

The two `async` functions of `src/lib.rs` are embedded as pure functions of
the process environment and the external collaborators, returning the
`Result` together with the ordered list of outward-facing effects the run
performed. -/

/-- Outward-facing actions of a run: KMS client construction
(`get_kms_client`), the KMS decrypt request (`decrypt_blob`'s `send`), the
Nacos connection construction (`ConfigServiceBuilder::build`), the config
fetch (`get_config`), and the `serde_json` parse attempt. -/
inductive Effect where
  | kmsClientConstructed
  | kmsDecryptSent (key : String) (blob : List Nat)
  | nacosConnect (addr : String)
  | nacosFetch (data_id group : String)
  | parseAttempted
  deriving DecidableEq, Repr

/-- Outcome of the KMS decrypt collaborator for a given key and ciphertext
blob: the call itself may fail, or succeed with an optional plaintext. -/
inductive KmsOutcome where
  | failed (e : String)
  | ok (plaintext : Option (List Nat))
  deriving DecidableEq, Repr

/-- The structure the Nacos `get_config` response exposes
(`content`, `namespace`, `data_id`, `group`, `md5` accessors). -/
structure ConfigResp where
  content : String
  namespace_ : String
  data_id : String
  group : String
  md5 : String
  deriving DecidableEq, Repr

/-- The Nacos configuration-service collaborator together with the
`serde_json` parser for the caller's target type `T`: builder outcome,
fetch outcome keyed by `(data_id, group)`, and parse outcome. -/
structure NacosOracle (T : Type) where
  build : Except String Unit
  getConfig : String → String → Except String ConfigResp
  parse : String → Except String T

/-- Model of `get_blob` (`src/lib.rs` lines 127-132): base64-decode the stripped
payload; on failure the error message embeds the offending payload. -/
def get_blob (raw_password : String) : Except NacosError (List Nat) :=
  match base64Decode raw_password.data with
  | .error e =>
    .error (.Base64DecodeError ("Failed to decode base64: " ++ raw_password ++ ": " ++ e))
  | .ok raw => .ok raw

/-- Model of `decrypt_blob` (`src/lib.rs` lines 134-149): send the decrypt request,
then require a plaintext field, then require valid UTF-8. -/
def decrypt_blob (kms : String → List Nat → KmsOutcome) (key : String)
    (blob : List Nat) : Except NacosError String :=
  match kms key blob with
  | .failed e => .error (.KmsError ("Failed to decrypt blob from kms: " ++ e))
  | .ok none => .error (.KmsError "Failed to get plaintext from kms's response")
  | .ok (some bytes) =>
    match utf8Decode bytes with
    | .error e => .error (.Utf8Error ("Could not convert to UTF-8: " ++ utf8ErrDisplay e))
    | .ok cs => .ok (String.mk cs)

/-- Model of `decrypt_password` (`src/lib.rs` lines 106-118). A password starting
with `ENC(` takes the encrypted path: `KMS_KEY_ID` lookup, payload
stripping, `get_blob`, KMS client construction, `decrypt_blob`. Any other
password is returned unchanged with no effects. -/
def decrypt_password (env : String → Option String)
    (kms : String → List Nat → KmsOutcome) (password : String) :
    Except NacosError String × List Effect :=
  if "ENC(".data.isPrefixOf password.data then
    match env "KMS_KEY_ID" with
    | none => (.error (.EnvVarError "KMS_KEY_ID not set"), [])
    | some key =>
      match get_blob (stripEncStr password) with
      | .error e => (.error e, [])
      | .ok blob =>
        (decrypt_blob kms key blob, [.kmsClientConstructed, .kmsDecryptSent key blob])
  else (.ok password, [])

/-- The validation section of `from_nacos` (`src/lib.rs` lines 82-98):
recompute the MD5 of the content, then compare namespace, data_id, group,
and declared-vs-recomputed md5, failing fast with a distinct message. -/
def validate_config (nacos_namespace nacos_data_id nacos_group : String)
    (resp : ConfigResp) : Except NacosError Unit :=
  let md5 := md5_hex resp.content
  if resp.namespace_ ≠ nacos_namespace then
    .error (.NacosConfigError "nacos_namespace unmatched")
  else if resp.data_id ≠ nacos_data_id then
    .error (.NacosConfigError "nacos_data_id unmatched")
  else if resp.group ≠ nacos_group then
    .error (.NacosConfigError "nacos_group unmatched")
  else if resp.md5 ≠ md5 then
    .error (.NacosConfigError "ConfigResponse md5 unmatched")
  else .ok ()

/-- Model of `from_nacos` (`src/lib.rs` lines 41-103): environment reads in source
order, password decryption, the `NACOS_DATA_ID` read, address
normalization, connection construction, fetch, validation, parse. -/
def from_nacos {T : Type} (env : String → Option String)
    (kms : String → List Nat → KmsOutcome) (nacos : NacosOracle T) :
    Except NacosError T × List Effect :=
  match env "NACOS_ADDR" with
  | none => (.error (.EnvVarError "NACOS_ADDR not set"), [])
  | some nacos_addr =>
  match env "NACOS_GROUP" with
  | none => (.error (.EnvVarError "NACOS_GROUP not set"), [])
  | some nacos_group =>
  match env "NACOS_NAMESPACE" with
  | none => (.error (.EnvVarError "NACOS_NAMESPACE not set"), [])
  | some nacos_namespace =>
  match env "NACOS_USERNAME" with
  | none => (.error (.EnvVarError "NACOS_USERNAME not set"), [])
  | some _nacos_username =>
  match env "NACOS_PASSWORD" with
  | none => (.error (.EnvVarError "NACOS_PASSWORD not set"), [])
  | some nacos_password =>
  match decrypt_password env kms nacos_password with
  | (.error e, effs) => (.error e, effs)
  | (.ok _decrypted, effs) =>
  match env "NACOS_DATA_ID" with
  | none => (.error (.EnvVarError "NACOS_DATA_ID not set"), effs)
  | some nacos_data_id =>
  let addr := normalize_addr nacos_addr
  match nacos.build with
  | .error e =>
    (.error (.NacosConnectionError
      ("Failed to create ConfigServiceBuilder for nacos: " ++ addr ++ ": " ++ e)),
     effs ++ [.nacosConnect addr])
  | .ok _ =>
  match nacos.getConfig nacos_data_id nacos_group with
  | .error e =>
    (.error (.NacosConfigError
      ("Failed to get config from nacos, data_id: " ++ nacos_data_id ++
       ", group: " ++ nacos_group ++ ": " ++ e)),
     effs ++ [.nacosConnect addr, .nacosFetch nacos_data_id nacos_group])
  | .ok resp =>
  match validate_config nacos_namespace nacos_data_id nacos_group resp with
  | .error e =>
    (.error e, effs ++ [.nacosConnect addr, .nacosFetch nacos_data_id nacos_group])
  | .ok _ =>
  match nacos.parse resp.content with
  | .error e =>
    (.error (.ConfigParseError
      ("Failed to parse config from nacos: " ++ resp.content ++ ": " ++ e)),
     effs ++ [.nacosConnect addr, .nacosFetch nacos_data_id nacos_group, .parseAttempted])
  | .ok v =>
    (.ok v,
     effs ++ [.nacosConnect addr, .nacosFetch nacos_data_id nacos_group, .parseAttempted])

/-- Modelled from the spec: claim C8's reading of the normalization —
"a with a single leading `http://` removed if present, else a with a single
leading `https://` removed if present, else a itself". Compared against
`normalize_addr`, which embeds the source's `trim_start_matches` chain. -/
def spec_normalize_addr (a : String) : String :=
  if ("http://".data.isPrefixOf a.data) = true then String.mk (a.data.drop 7)
  else if ("https://".data.isPrefixOf a.data) = true then String.mk (a.data.drop 8)
  else a

/-! ### Theorems -/

/-- Claim C1: a password that does not start with `ENC(` is returned
unchanged by `decrypt_password`, with no KMS client constructed and no
decrypt request sent (the effect list is empty), for every environment —
in particular whether or not `KMS_KEY_ID` is set. -/
theorem c1_plaintext_password_passthrough (env : String → Option String)
    (kms : String → List Nat → KmsOutcome) (p : String)
    (h : ("ENC(".data.isPrefixOf p.data) = false) :
    decrypt_password env kms p = (.ok p, []) := by
  simp [decrypt_password, h]

/-- Witness for C1 at the concrete password `hunter2`, in an environment
where `KMS_KEY_ID` is absent. -/
theorem c1_plaintext_password_passthrough_witness :
    ("ENC(".data.isPrefixOf "hunter2".data) = false ∧
    decrypt_password (fun _ => none) (fun _ _ => .ok none) "hunter2" =
      (.ok "hunter2", []) :=
  ⟨by decide, c1_plaintext_password_passthrough _ _ _ (by decide)⟩

/-- Claim C5: for a password starting with `ENC(`, a missing `KMS_KEY_ID`
yields `EnvVarError` with an empty effect list — before the base64 decode,
the KMS client construction, and the decrypt request (the statement holds
for every payload, valid base64 or not). -/
theorem c5_missing_kms_key_id (env : String → Option String)
    (kms : String → List Nat → KmsOutcome) (p : String)
    (h1 : ("ENC(".data.isPrefixOf p.data) = true)
    (h2 : env "KMS_KEY_ID" = none) :
    decrypt_password env kms p = (.error (.EnvVarError "KMS_KEY_ID not set"), []) := by
  simp [decrypt_password, h1, h2]

/-- Witness for C5 at `ENC(!!!)` — a payload that is not even valid
base64, showing the `KMS_KEY_ID` lookup precedes the decode. -/
theorem c5_missing_kms_key_id_witness :
    ("ENC(".data.isPrefixOf "ENC(!!!)".data) = true ∧
    (fun (_ : String) => (none : Option String)) "KMS_KEY_ID" = none ∧
    decrypt_password (fun _ => none) (fun _ _ => .ok none) "ENC(!!!)" =
      (.error (.EnvVarError "KMS_KEY_ID not set"), []) :=
  ⟨by decide, rfl, c5_missing_kms_key_id _ _ _ (by decide) rfl⟩

theorem stripEncLoop_marker (s : List Char) :
    stripEncLoop ("ENC(".data ++ s) = stripEncLoop s := rfl

theorem stripEncLoop_no_marker (s : List Char)
    (h : ("ENC(".data.isPrefixOf s) = false) : stripEncLoop s = s := by
  unfold stripEncLoop
  split
  · simp [List.isPrefixOf] at h
  · rfl

theorem trimEndParen_paren (s : List Char) :
    trimEndParen (s ++ [')']) = trimEndParen s := by
  simp [trimEndParen, List.dropWhile_cons]

theorem trimEndParen_no_paren (s : List Char) (c : Char) (h : c ≠ ')') :
    trimEndParen (s ++ [c]) = s ++ [c] := by
  simp [trimEndParen, List.dropWhile_cons, h]

/-- Claim C10: `decrypt_password` classifies any password starting with
`ENC(` as encrypted, even with no closing `)`; and the stripping removes
every leading repetition of `ENC(` and every trailing `)` — not exactly
one of each. Illustrated on `ENC(ENC(abc))`, `ENC(abc`, and `ENC(abc))`. -/
theorem c10_marker_stripping :
    (∀ s : List Char, stripEncLoop ("ENC(".data ++ s) = stripEncLoop s) ∧
    (∀ s : List Char, ("ENC(".data.isPrefixOf s) = false → stripEncLoop s = s) ∧
    (∀ s : List Char, trimEndParen (s ++ [')']) = trimEndParen s) ∧
    (∀ (s : List Char) (c : Char), c ≠ ')' → trimEndParen (s ++ [c]) = s ++ [c]) ∧
    stripEncStr "ENC(ENC(abc))" = "abc" ∧
    stripEncStr "ENC(abc" = "abc" ∧
    stripEncStr "ENC(abc))" = "abc" ∧
    ("ENC(".data.isPrefixOf "ENC(abc".data) = true ∧
    (∀ kms, decrypt_password (fun _ => none) kms "ENC(abc" =
      (.error (.EnvVarError "KMS_KEY_ID not set"), [])) := by
  refine ⟨stripEncLoop_marker, stripEncLoop_no_marker, trimEndParen_paren,
    trimEndParen_no_paren, by decide, by decide, by decide, by decide, ?_⟩
  intro kms
  simp [decrypt_password]

/-- Witness for C10, exercising the conditional conjuncts at concrete
inputs. -/
theorem c10_marker_stripping_witness :
    stripEncLoop ("ENC(".data ++ "abc".data) = stripEncLoop "abc".data ∧
    stripEncLoop "xyz".data = "xyz".data ∧
    trimEndParen ("ab".data ++ [')']) = trimEndParen "ab".data ∧
    trimEndParen ("ab".data ++ ['c']) = "ab".data ++ ['c'] ∧
    stripEncStr "ENC(ENC(abc))" = "abc" :=
  ⟨c10_marker_stripping.1 _, c10_marker_stripping.2.1 _ (by decide),
   c10_marker_stripping.2.2.1 _, c10_marker_stripping.2.2.2.1 _ _ (by decide),
   c10_marker_stripping.2.2.2.2.1⟩

/-- Counterexample to claim C8 as stated: on `http://http://host:8848` the
code strips both repetitions of the scheme, while a single-removal
normalization (the claim's wording, `spec_normalize_addr`) leaves
`http://host:8848`. -/
theorem c8_single_strip_counterexample :
    normalize_addr "http://http://host:8848" = "host:8848" ∧
    spec_normalize_addr "http://http://host:8848" = "http://host:8848" ∧
    normalize_addr "http://http://host:8848" ≠
      spec_normalize_addr "http://http://host:8848" := by
  refine ⟨?_, ?_, ?_⟩ <;> decide

theorem stripHttpLoop_marker (s : List Char) :
    stripHttpLoop ("http://".data ++ s) = stripHttpLoop s := rfl

theorem stripHttpLoop_no_marker (s : List Char)
    (h : ("http://".data.isPrefixOf s) = false) : stripHttpLoop s = s := by
  unfold stripHttpLoop
  split
  · simp [List.isPrefixOf] at h
  · rfl

theorem stripHttpsLoop_marker (s : List Char) :
    stripHttpsLoop ("https://".data ++ s) = stripHttpsLoop s := rfl

theorem stripHttpsLoop_no_marker (s : List Char)
    (h : ("https://".data.isPrefixOf s) = false) : stripHttpsLoop s = s := by
  unfold stripHttpsLoop
  split
  · simp [List.isPrefixOf] at h
  · rfl

/-- Claim C8 (amended): the normalization removes every leading repetition
of `http://` and then, from the remainder, every leading repetition of
`https://`; an address with neither leading scheme is unchanged. In
particular a single leading scheme is removed, but repeated or mixed
schemes are all stripped. -/
theorem c8_normalize_addr_strips_all_schemes :
    (∀ s : List Char, stripHttpLoop ("http://".data ++ s) = stripHttpLoop s) ∧
    (∀ s : List Char, ("http://".data.isPrefixOf s) = false → stripHttpLoop s = s) ∧
    (∀ s : List Char, stripHttpsLoop ("https://".data ++ s) = stripHttpsLoop s) ∧
    (∀ s : List Char, ("https://".data.isPrefixOf s) = false → stripHttpsLoop s = s) ∧
    (∀ a : String, (normalize_addr a).data = stripHttpsLoop (stripHttpLoop a.data)) ∧
    normalize_addr "http://host:8848" = "host:8848" ∧
    normalize_addr "https://host:8848" = "host:8848" ∧
    normalize_addr "host:8848" = "host:8848" :=
  ⟨stripHttpLoop_marker, stripHttpLoop_no_marker, stripHttpsLoop_marker,
   stripHttpsLoop_no_marker, fun _ => rfl, by decide, by decide, by decide⟩

/-- Witness for the amended C8, exercising the conditional conjuncts at
concrete inputs. -/
theorem c8_normalize_addr_strips_all_schemes_witness :
    stripHttpLoop ("http://".data ++ "x".data) = stripHttpLoop "x".data ∧
    stripHttpLoop "https://x".data = "https://x".data ∧
    stripHttpsLoop ("https://".data ++ "x".data) = stripHttpsLoop "x".data ∧
    stripHttpsLoop "x".data = "x".data ∧
    normalize_addr "http://host:8848" = "host:8848" :=
  ⟨c8_normalize_addr_strips_all_schemes.1 _,
   c8_normalize_addr_strips_all_schemes.2.1 _ (by decide),
   c8_normalize_addr_strips_all_schemes.2.2.1 _,
   c8_normalize_addr_strips_all_schemes.2.2.2.1 _ (by decide),
   c8_normalize_addr_strips_all_schemes.2.2.2.2.2.2.1⟩

/-- Claim C2: integrity validation compares namespace, then data_id, then
group, then the declared checksum against the recomputed one, failing fast
on the first mismatch with a distinct `NacosConfigError` message naming
that field; each comparison is exact string equality. A namespace mismatch
is reported unconditionally — in particular even when the checksum also
mismatches. -/
theorem c2_validation_order (ns id g : String) (resp : ConfigResp) :
    (resp.namespace_ ≠ ns →
      validate_config ns id g resp =
        .error (.NacosConfigError "nacos_namespace unmatched")) ∧
    (resp.namespace_ = ns → resp.data_id ≠ id →
      validate_config ns id g resp =
        .error (.NacosConfigError "nacos_data_id unmatched")) ∧
    (resp.namespace_ = ns → resp.data_id = id → resp.group ≠ g →
      validate_config ns id g resp =
        .error (.NacosConfigError "nacos_group unmatched")) ∧
    (resp.namespace_ = ns → resp.data_id = id → resp.group = g →
      resp.md5 ≠ md5_hex resp.content →
      validate_config ns id g resp =
        .error (.NacosConfigError "ConfigResponse md5 unmatched")) ∧
    (resp.namespace_ = ns → resp.data_id = id → resp.group = g →
      resp.md5 = md5_hex resp.content →
      validate_config ns id g resp = .ok ()) := by
  refine ⟨?_, ?_, ?_, ?_, ?_⟩ <;> intros <;> simp_all [validate_config]

/-- Witness for C2: all five validation outcomes at concrete responses;
the first response has both a namespace and a checksum mismatch and is
still reported as a namespace mismatch. -/
theorem c2_validation_order_witness :
    validate_config "ns1" "app.json" "DEFAULT_GROUP"
        ⟨"c", "ns2", "app.json", "DEFAULT_GROUP", "zzz"⟩ =
      .error (.NacosConfigError "nacos_namespace unmatched") ∧
    validate_config "ns1" "app.json" "DEFAULT_GROUP"
        ⟨"c", "ns1", "other", "DEFAULT_GROUP", "zzz"⟩ =
      .error (.NacosConfigError "nacos_data_id unmatched") ∧
    validate_config "ns1" "app.json" "DEFAULT_GROUP"
        ⟨"c", "ns1", "app.json", "G2", "zzz"⟩ =
      .error (.NacosConfigError "nacos_group unmatched") ∧
    validate_config "ns1" "app.json" "DEFAULT_GROUP"
        ⟨"c", "ns1", "app.json", "DEFAULT_GROUP", "zzz"⟩ =
      .error (.NacosConfigError "ConfigResponse md5 unmatched") ∧
    validate_config "ns1" "app.json" "DEFAULT_GROUP"
        ⟨"c", "ns1", "app.json", "DEFAULT_GROUP", md5_hex "c"⟩ = .ok () :=
  ⟨(c2_validation_order "ns1" "app.json" "DEFAULT_GROUP" _).1 (by decide),
   (c2_validation_order "ns1" "app.json" "DEFAULT_GROUP" _).2.1 rfl (by decide),
   (c2_validation_order "ns1" "app.json" "DEFAULT_GROUP" _).2.2.1 rfl rfl (by decide),
   (c2_validation_order "ns1" "app.json" "DEFAULT_GROUP" _).2.2.2.1 rfl rfl rfl
     (by decide),
   (c2_validation_order "ns1" "app.json" "DEFAULT_GROUP" _).2.2.2.2 rfl rfl rfl rfl⟩

/-- Claim C7: the KMS decrypt step maps a failed decrypt call to
`KmsError`, a response lacking plaintext to `KmsError`, a plaintext that is
not valid UTF-8 to `Utf8Error`, and otherwise returns the UTF-8-decoded
plaintext string. -/
theorem c7_decrypt_blob_outcomes (kms : String → List Nat → KmsOutcome)
    (key : String) (blob : List Nat) :
    (∀ e, kms key blob = .failed e →
      decrypt_blob kms key blob =
        .error (.KmsError ("Failed to decrypt blob from kms: " ++ e))) ∧
    (kms key blob = .ok none →
      decrypt_blob kms key blob =
        .error (.KmsError "Failed to get plaintext from kms's response")) ∧
    (∀ bytes err, kms key blob = .ok (some bytes) → utf8Decode bytes = .error err →
      decrypt_blob kms key blob =
        .error (.Utf8Error ("Could not convert to UTF-8: " ++ utf8ErrDisplay err))) ∧
    (∀ bytes cs, kms key blob = .ok (some bytes) → utf8Decode bytes = .ok cs →
      decrypt_blob kms key blob = .ok (String.mk cs)) := by
  refine ⟨?_, ?_, ?_, ?_⟩ <;> intros <;> simp_all [decrypt_blob]

/-- Witness for C7: all four outcomes at concrete collaborator behaviours
(`[255]` is not valid UTF-8; `[112, 119]` decodes to `pw`). -/
theorem c7_decrypt_blob_outcomes_witness :
    decrypt_blob (fun _ _ => .failed "boom") "k" [1] =
      .error (.KmsError "Failed to decrypt blob from kms: boom") ∧
    decrypt_blob (fun _ _ => .ok none) "k" [1] =
      .error (.KmsError "Failed to get plaintext from kms's response") ∧
    decrypt_blob (fun _ _ => .ok (some [255])) "k" [1] =
      .error (.Utf8Error
        "Could not convert to UTF-8: invalid utf-8 sequence of 1 bytes from index 0") ∧
    decrypt_blob (fun _ _ => .ok (some [112, 119])) "k" [1] = .ok "pw" :=
  ⟨(c7_decrypt_blob_outcomes (fun _ _ => .failed "boom") "k" [1]).1 "boom" rfl,
   (c7_decrypt_blob_outcomes (fun _ _ => .ok none) "k" [1]).2.1 rfl,
   (c7_decrypt_blob_outcomes (fun _ _ => .ok (some [255])) "k" [1]).2.2.1
     [255] (0, some 1) rfl rfl,
   (c7_decrypt_blob_outcomes (fun _ _ => .ok (some [112, 119])) "k" [1]).2.2.2
     [112, 119] ['p', 'w'] rfl rfl⟩

theorem string_mk_data (l : List Char) : (String.mk l).data = l := rfl

theorem leBytes_length (n v : Nat) : (leBytes n v).length = n := by
  induction n generalizing v with
  | zero => rfl
  | succ k ih => simp [leBytes, ih]

theorem md5Bytes_length (bytes : List Nat) : (md5Bytes bytes).length = 16 := by
  simp [md5Bytes, leBytes_length]

theorem flatMap_byteHex_length (l : List Nat) :
    (l.flatMap byteHex).length = 2 * l.length := by
  induction l with
  | nil => rfl
  | cons b t ih =>
    rw [List.flatMap_cons, List.length_append, ih, List.length_cons]
    simp [byteHex]
    omega

theorem hexDigitChar_mem (n : Nat) : hexDigitChar n ∈ "0123456789abcdef".data := by
  have h : n % 16 < 16 := Nat.mod_lt _ (by norm_num)
  have hall : ∀ m, m < 16 →
      "0123456789abcdef".data.getD m '0' ∈ "0123456789abcdef".data := by decide
  exact hall _ h

/-- The recomputed checksum is always 32 lowercase hex characters: the hex
encoding of a 128-bit digest. -/
theorem md5_hex_shape (s : String) :
    (md5_hex s).data.length = 32 ∧
    ∀ c ∈ (md5_hex s).data, c ∈ "0123456789abcdef".data := by
  constructor
  · rw [md5_hex, string_mk_data, flatMap_byteHex_length, md5Bytes_length]
  · intro c hc
    rw [md5_hex, string_mk_data] at hc
    rcases List.mem_flatMap.mp hc with ⟨b, _, hcb⟩
    simp only [byteHex, List.mem_cons, List.not_mem_nil, or_false] at hcb
    rcases hcb with h | h <;> rw [h] <;> exact hexDigitChar_mem _

theorem decrypt_password_effects (env : String → Option String)
    (kms : String → List Nat → KmsOutcome) (p : String) :
    (decrypt_password env kms p).2 = [] ∨
    ∃ k b, (decrypt_password env kms p).2 =
      [.kmsClientConstructed, .kmsDecryptSent k b] := by
  unfold decrypt_password
  split
  · cases henv : env "KMS_KEY_ID" with
    | none => simp
    | some key =>
      cases hgb : get_blob (stripEncStr p) with
      | error e => simp [hgb]
      | ok blob => exact Or.inr ⟨key, blob, by simp [hgb]⟩
  · exact Or.inl rfl

theorem validate_config_error_cases (ns d g : String) (resp : ConfigResp)
    (verr : NacosError) (h : validate_config ns d g resp = .error verr) :
    verr = .NacosConfigError "nacos_namespace unmatched" ∨
    verr = .NacosConfigError "nacos_data_id unmatched" ∨
    verr = .NacosConfigError "nacos_group unmatched" ∨
    verr = .NacosConfigError "ConfigResponse md5 unmatched" := by
  unfold validate_config at h
  by_cases h1 : resp.namespace_ = ns <;> by_cases h2 : resp.data_id = d <;>
    by_cases h3 : resp.group = g <;>
    by_cases h4 : resp.md5 = md5_hex resp.content <;>
    simp_all

theorem decrypt_password_error_cases (env : String → Option String)
    (kms : String → List Nat → KmsOutcome) (p : String) (err : NacosError)
    (effs : List Effect) (h : decrypt_password env kms p = (.error err, effs)) :
    err = .EnvVarError "KMS_KEY_ID not set" ∨
    (∃ e, err = .Base64DecodeError
      ("Failed to decode base64: " ++ stripEncStr p ++ ": " ++ e)) ∨
    (∃ k b e, kms k b = .failed e ∧
      err = .KmsError ("Failed to decrypt blob from kms: " ++ e)) ∨
    err = .KmsError "Failed to get plaintext from kms's response" ∨
    (∃ q, err = .Utf8Error ("Could not convert to UTF-8: " ++ utf8ErrDisplay q)) := by
  unfold decrypt_password at h
  split at h
  · cases henv : env "KMS_KEY_ID" with
    | none => simp only [henv] at h; simp_all
    | some key =>
      simp only [henv] at h
      cases hgb : base64Decode (stripEncStr p).data with
      | error e =>
        simp only [get_blob, hgb] at h
        exact Or.inr (Or.inl ⟨e, by simp_all⟩)
      | ok blob =>
        simp only [get_blob, hgb] at h
        cases hkms : kms key blob with
        | failed e =>
          simp only [decrypt_blob, hkms] at h
          exact Or.inr (Or.inr (Or.inl ⟨key, blob, e, hkms, by simp_all⟩))
        | ok plain =>
          cases plain with
          | none => simp only [decrypt_blob, hkms] at h; simp_all
          | some bytes =>
            cases hdec : utf8Decode bytes with
            | error q =>
              simp only [decrypt_blob, hkms, hdec] at h
              exact Or.inr (Or.inr (Or.inr (Or.inr ⟨q, by simp_all⟩)))
            | ok cs => simp only [decrypt_blob, hkms, hdec] at h; simp_all
  · simp_all

/-- Inversion principle for `from_nacos`: every run falls into exactly one
of the pipeline's twelve exit branches, with the stated result and effect
list. -/
theorem from_nacos_inversion {T : Type} (env : String → Option String)
    (kms : String → List Nat → KmsOutcome) (nacos : NacosOracle T)
    (res : Except NacosError T) (effs : List Effect)
    (h : from_nacos env kms nacos = (res, effs)) :
    (env "NACOS_ADDR" = none ∧
      res = .error (.EnvVarError "NACOS_ADDR not set") ∧ effs = []) ∨
    (env "NACOS_GROUP" = none ∧
      res = .error (.EnvVarError "NACOS_GROUP not set") ∧ effs = []) ∨
    (env "NACOS_NAMESPACE" = none ∧
      res = .error (.EnvVarError "NACOS_NAMESPACE not set") ∧ effs = []) ∨
    (env "NACOS_USERNAME" = none ∧
      res = .error (.EnvVarError "NACOS_USERNAME not set") ∧ effs = []) ∨
    (env "NACOS_PASSWORD" = none ∧
      res = .error (.EnvVarError "NACOS_PASSWORD not set") ∧ effs = []) ∨
    (∃ p err, env "NACOS_PASSWORD" = some p ∧
      decrypt_password env kms p = (.error err, effs) ∧ res = .error err) ∨
    (∃ p pw, env "NACOS_PASSWORD" = some p ∧
      decrypt_password env kms p = (.ok pw, effs) ∧
      env "NACOS_DATA_ID" = none ∧
      res = .error (.EnvVarError "NACOS_DATA_ID not set")) ∨
    (∃ a p pw deffs e, env "NACOS_ADDR" = some a ∧
      env "NACOS_PASSWORD" = some p ∧
      decrypt_password env kms p = (.ok pw, deffs) ∧ nacos.build = .error e ∧
      res = .error (.NacosConnectionError
        ("Failed to create ConfigServiceBuilder for nacos: " ++
          normalize_addr a ++ ": " ++ e)) ∧
      effs = deffs ++ [.nacosConnect (normalize_addr a)]) ∨
    (∃ a p pw deffs d g e, env "NACOS_ADDR" = some a ∧
      env "NACOS_GROUP" = some g ∧ env "NACOS_PASSWORD" = some p ∧
      env "NACOS_DATA_ID" = some d ∧
      decrypt_password env kms p = (.ok pw, deffs) ∧
      nacos.getConfig d g = .error e ∧
      res = .error (.NacosConfigError
        ("Failed to get config from nacos, data_id: " ++ d ++ ", group: " ++
          g ++ ": " ++ e)) ∧
      effs = deffs ++ [.nacosConnect (normalize_addr a), .nacosFetch d g]) ∨
    (∃ a p pw deffs d g ns resp verr, env "NACOS_ADDR" = some a ∧
      env "NACOS_GROUP" = some g ∧ env "NACOS_NAMESPACE" = some ns ∧
      env "NACOS_PASSWORD" = some p ∧ env "NACOS_DATA_ID" = some d ∧
      decrypt_password env kms p = (.ok pw, deffs) ∧
      nacos.getConfig d g = .ok resp ∧
      validate_config ns d g resp = .error verr ∧ res = .error verr ∧
      effs = deffs ++ [.nacosConnect (normalize_addr a), .nacosFetch d g]) ∨
    (∃ a p pw deffs d g resp e, env "NACOS_ADDR" = some a ∧
      env "NACOS_GROUP" = some g ∧ env "NACOS_PASSWORD" = some p ∧
      env "NACOS_DATA_ID" = some d ∧
      decrypt_password env kms p = (.ok pw, deffs) ∧
      nacos.getConfig d g = .ok resp ∧ nacos.parse resp.content = .error e ∧
      res = .error (.ConfigParseError
        ("Failed to parse config from nacos: " ++ resp.content ++ ": " ++ e)) ∧
      effs = deffs ++ [.nacosConnect (normalize_addr a), .nacosFetch d g,
        .parseAttempted]) ∨
    (∃ a p pw deffs d g v, env "NACOS_ADDR" = some a ∧
      env "NACOS_GROUP" = some g ∧ env "NACOS_PASSWORD" = some p ∧
      env "NACOS_DATA_ID" = some d ∧
      decrypt_password env kms p = (.ok pw, deffs) ∧ res = .ok v ∧
      effs = deffs ++ [.nacosConnect (normalize_addr a), .nacosFetch d g,
        .parseAttempted]) := by
  unfold from_nacos at h
  cases hA : env "NACOS_ADDR" with
  | none =>
    simp only [hA] at h
    injection h with h1 h2
    subst h1; subst h2
    exact Or.inl ⟨rfl, rfl, rfl⟩
  | some a =>
  simp only [hA] at h
  cases hG : env "NACOS_GROUP" with
  | none =>
    simp only [hG] at h
    injection h with h1 h2
    subst h1; subst h2
    exact Or.inr (Or.inl ⟨rfl, rfl, rfl⟩)
  | some g =>
  simp only [hG] at h
  cases hN : env "NACOS_NAMESPACE" with
  | none =>
    simp only [hN] at h
    injection h with h1 h2
    subst h1; subst h2
    exact Or.inr (Or.inr (Or.inl ⟨rfl, rfl, rfl⟩))
  | some ns =>
  simp only [hN] at h
  cases hU : env "NACOS_USERNAME" with
  | none =>
    simp only [hU] at h
    injection h with h1 h2
    subst h1; subst h2
    exact Or.inr (Or.inr (Or.inr (Or.inl ⟨rfl, rfl, rfl⟩)))
  | some u =>
  simp only [hU] at h
  cases hP : env "NACOS_PASSWORD" with
  | none =>
    simp only [hP] at h
    injection h with h1 h2
    subst h1; subst h2
    exact Or.inr (Or.inr (Or.inr (Or.inr (Or.inl ⟨rfl, rfl, rfl⟩))))
  | some p =>
  simp only [hP] at h
  cases hD : decrypt_password env kms p with
  | mk dres deffs =>
  cases dres with
  | error derr =>
    simp only [hD] at h
    injection h with h1 h2
    subst h1; subst h2
    exact Or.inr (Or.inr (Or.inr (Or.inr (Or.inr (Or.inl
      ⟨p, derr, rfl, hD, rfl⟩)))))
  | ok pw =>
  simp only [hD] at h
  cases hI : env "NACOS_DATA_ID" with
  | none =>
    simp only [hI] at h
    injection h with h1 h2
    subst h1; subst h2
    exact Or.inr (Or.inr (Or.inr (Or.inr (Or.inr (Or.inr (Or.inl
      ⟨p, pw, rfl, hD, rfl, rfl⟩))))))
  | some d =>
  simp only [hI] at h
  cases hB : nacos.build with
  | error e =>
    simp only [hB] at h
    injection h with h1 h2
    subst h1; subst h2
    exact Or.inr (Or.inr (Or.inr (Or.inr (Or.inr (Or.inr (Or.inr (Or.inl
      ⟨a, p, pw, deffs, e, rfl, rfl, hD, rfl, rfl, rfl⟩)))))))
  | ok _ =>
  simp only [hB] at h
  cases hF : nacos.getConfig d g with
  | error e =>
    simp only [hF] at h
    injection h with h1 h2
    subst h1; subst h2
    exact Or.inr (Or.inr (Or.inr (Or.inr (Or.inr (Or.inr (Or.inr (Or.inr
      (Or.inl ⟨a, p, pw, deffs, d, g, e, rfl, rfl, rfl, rfl, hD, hF, rfl, rfl⟩))))))))
  | ok resp =>
  simp only [hF] at h
  cases hV : validate_config ns d g resp with
  | error verr =>
    simp only [hV] at h
    injection h with h1 h2
    subst h1; subst h2
    exact Or.inr (Or.inr (Or.inr (Or.inr (Or.inr (Or.inr (Or.inr (Or.inr
      (Or.inr (Or.inl
        ⟨a, p, pw, deffs, d, g, ns, resp, verr, rfl, rfl, rfl, rfl, rfl, hD,
         hF, hV, rfl, rfl⟩)))))))))
  | ok _ =>
  simp only [hV] at h
  cases hR : nacos.parse resp.content with
  | error e =>
    simp only [hR] at h
    injection h with h1 h2
    subst h1; subst h2
    exact Or.inr (Or.inr (Or.inr (Or.inr (Or.inr (Or.inr (Or.inr (Or.inr
      (Or.inr (Or.inr (Or.inl
        ⟨a, p, pw, deffs, d, g, resp, e, rfl, rfl, rfl, rfl, hD, hF, hR,
         rfl, rfl⟩))))))))))
  | ok v =>
    simp only [hR] at h
    injection h with h1 h2
    subst h1; subst h2
    exact Or.inr (Or.inr (Or.inr (Or.inr (Or.inr (Or.inr (Or.inr (Or.inr
      (Or.inr (Or.inr (Or.inr
        ⟨a, p, pw, deffs, d, g, v, rfl, rfl, rfl, rfl, hD, rfl, rfl⟩))))))))))

theorem decrypt_effects_no_parse (env : String → Option String)
    (kms : String → List Nat → KmsOutcome) (p : String)
    (r : Except NacosError String) (effs : List Effect)
    (h : decrypt_password env kms p = (r, effs)) :
    Effect.parseAttempted ∉ effs := by
  rcases decrypt_password_effects env kms p with he | ⟨k, b, he⟩ <;>
    rw [h] at he <;> simp at he <;> simp [he]

/-- Claim C3: the checksum is recomputed as the MD5 of the content — a
32-hex-character rendering of a 128-bit digest — independently of the
declared value; when it differs from the declared checksum (the other
three fields matching), validation fails with the md5-naming
`NacosConfigError`, and whenever `from_nacos` returns any
`NacosConfigError` no parse was attempted. -/
theorem c3_md5_checksum_recompute (content ns id g : String) (resp : ConfigResp) :
    ((md5_hex content).data.length = 32 ∧
      ∀ c ∈ (md5_hex content).data, c ∈ "0123456789abcdef".data) ∧
    (resp.namespace_ = ns → resp.data_id = id → resp.group = g →
      resp.md5 ≠ md5_hex resp.content →
      validate_config ns id g resp =
        .error (.NacosConfigError "ConfigResponse md5 unmatched")) ∧
    (∀ (T : Type) (env : String → Option String)
        (kms : String → List Nat → KmsOutcome) (nacos : NacosOracle T)
        (m : String) (effs : List Effect),
      from_nacos env kms nacos = (.error (.NacosConfigError m), effs) →
      Effect.parseAttempted ∉ effs) := by
  refine ⟨md5_hex_shape content, ?_, ?_⟩
  · intro h1 h2 h3 h4
    simp_all [validate_config]
  · intro T env kms nacos m effs h
    rcases from_nacos_inversion env kms nacos _ _ h with
      ⟨_, _, he⟩ | ⟨_, _, he⟩ | ⟨_, _, he⟩ | ⟨_, _, he⟩ | ⟨_, _, he⟩ |
      ⟨p, err, _, hdec, _⟩ | ⟨p, pw, _, hdec, _, _⟩ |
      ⟨a, p, pw, deffs, e, _, _, hdec, _, _, he⟩ |
      ⟨a, p, pw, deffs, d, g', e, _, _, _, _, hdec, _, _, he⟩ |
      ⟨a, p, pw, deffs, d, g', ns', resp', verr, _, _, _, _, _, hdec, _, _, _, he⟩ |
      ⟨a, p, pw, deffs, d, g', resp', e, _, _, _, _, hdec, _, _, hr, he⟩ |
      ⟨a, p, pw, deffs, d, g', v, _, _, _, _, hdec, hr, he⟩
    · simp [he]
    · simp [he]
    · simp [he]
    · simp [he]
    · simp [he]
    · exact decrypt_effects_no_parse _ _ _ _ _ hdec
    · exact decrypt_effects_no_parse _ _ _ _ _ hdec
    · subst he
      have hnp := decrypt_effects_no_parse _ _ _ _ _ hdec
      simp [List.mem_append, hnp]
    · subst he
      have hnp := decrypt_effects_no_parse _ _ _ _ _ hdec
      simp [List.mem_append, hnp]
    · subst he
      have hnp := decrypt_effects_no_parse _ _ _ _ _ hdec
      simp [List.mem_append, hnp]
    · simp at hr
    · simp at hr

/-- Witness for C3: a concrete response whose declared checksum `bad`
differs from the MD5 of its content; the pipeline stops at validation with
the md5 error and the effect trace holds no parse attempt. -/
theorem c3_md5_checksum_recompute_witness :
    (md5_hex "conf").data.length = 32 ∧
    validate_config "ns1" "app.json" "DEFAULT_GROUP"
        ⟨"conf", "ns1", "app.json", "DEFAULT_GROUP", "bad"⟩ =
      .error (.NacosConfigError "ConfigResponse md5 unmatched") ∧
    Effect.parseAttempted ∉
      ([.nacosConnect "localhost:8848",
        .nacosFetch "app.json" "DEFAULT_GROUP"] : List Effect) :=
  ⟨(c3_md5_checksum_recompute "conf" "ns1" "app.json" "DEFAULT_GROUP"
      ⟨"conf", "ns1", "app.json", "DEFAULT_GROUP", "bad"⟩).1.1,
   (c3_md5_checksum_recompute "conf" "ns1" "app.json" "DEFAULT_GROUP"
      ⟨"conf", "ns1", "app.json", "DEFAULT_GROUP", "bad"⟩).2.1 rfl rfl rfl
     (by decide),
   (c3_md5_checksum_recompute "conf" "ns1" "app.json" "DEFAULT_GROUP"
      ⟨"conf", "ns1", "app.json", "DEFAULT_GROUP", "bad"⟩).2.2 String
     (fun k =>
       if k = "NACOS_ADDR" then some "localhost:8848"
       else if k = "NACOS_GROUP" then some "DEFAULT_GROUP"
       else if k = "NACOS_NAMESPACE" then some "ns1"
       else if k = "NACOS_USERNAME" then some "u"
       else if k = "NACOS_PASSWORD" then some "pw"
       else if k = "NACOS_DATA_ID" then some "app.json"
       else none)
     (fun _ _ => .ok none)
     ⟨.ok (), fun _ _ => .ok ⟨"conf", "ns1", "app.json", "DEFAULT_GROUP", "bad"⟩,
      fun s => .ok s⟩
     "ConfigResponse md5 unmatched" _ rfl⟩

/-- Environment with every variable set except `NACOS_DATA_ID`, and an
encrypted password. -/
def envC4 : String → Option String := fun k =>
  if k = "NACOS_ADDR" then some "localhost:8848"
  else if k = "NACOS_GROUP" then some "DEFAULT_GROUP"
  else if k = "NACOS_NAMESPACE" then some "ns1"
  else if k = "NACOS_USERNAME" then some "u"
  else if k = "NACOS_PASSWORD" then some "ENC(QUJD)"
  else if k = "KMS_KEY_ID" then some "key-1"
  else none

/-- KMS collaborator that decrypts every blob to the bytes of `pw`. -/
def kmsC4 : String → List Nat → KmsOutcome := fun _ _ => .ok (some [112, 119])

/-- Nacos collaborator whose fetch is never reached in the C4 runs. -/
def nacosC4 : NacosOracle String :=
  ⟨.ok (), fun _ _ => .error "unreachable", fun s => .ok s⟩

/-- Counterexample to claim C4 as stated: with every variable except
`NACOS_DATA_ID` set and an encrypted password, `from_nacos` does report
`EnvVarError` for `NACOS_DATA_ID` — but only after the KMS client was
constructed and the decrypt request sent, so network activity precedes the
error, contrary to the claim's "before any KMS decrypt call". -/
theorem c4_data_id_after_kms_counterexample :
    from_nacos envC4 kmsC4 nacosC4 =
      (.error (.EnvVarError "NACOS_DATA_ID not set"),
       [.kmsClientConstructed, .kmsDecryptSent "key-1" [65, 66, 67]]) := rfl

/-- Claim C4 (amended): each of the five variables read before decryption
(`NACOS_ADDR`, `NACOS_GROUP`, `NACOS_NAMESPACE`, `NACOS_USERNAME`,
`NACOS_PASSWORD`), and `KMS_KEY_ID` when the password is encrypted, aborts
with an `EnvVarError` naming it and an empty effect list — before any
network activity. A missing `NACOS_DATA_ID` also yields its named
`EnvVarError` before any configuration-service connection or fetch, but
only after password decryption, whose KMS effects may already have
happened. -/
theorem c4_env_error_ordering (T : Type) (env : String → Option String)
    (kms : String → List Nat → KmsOutcome) (nacos : NacosOracle T) :
    (env "NACOS_ADDR" = none →
      from_nacos env kms nacos =
        (.error (.EnvVarError "NACOS_ADDR not set"), [])) ∧
    (∀ a, env "NACOS_ADDR" = some a → env "NACOS_GROUP" = none →
      from_nacos env kms nacos =
        (.error (.EnvVarError "NACOS_GROUP not set"), [])) ∧
    (∀ a g, env "NACOS_ADDR" = some a → env "NACOS_GROUP" = some g →
      env "NACOS_NAMESPACE" = none →
      from_nacos env kms nacos =
        (.error (.EnvVarError "NACOS_NAMESPACE not set"), [])) ∧
    (∀ a g ns, env "NACOS_ADDR" = some a → env "NACOS_GROUP" = some g →
      env "NACOS_NAMESPACE" = some ns → env "NACOS_USERNAME" = none →
      from_nacos env kms nacos =
        (.error (.EnvVarError "NACOS_USERNAME not set"), [])) ∧
    (∀ a g ns u, env "NACOS_ADDR" = some a → env "NACOS_GROUP" = some g →
      env "NACOS_NAMESPACE" = some ns → env "NACOS_USERNAME" = some u →
      env "NACOS_PASSWORD" = none →
      from_nacos env kms nacos =
        (.error (.EnvVarError "NACOS_PASSWORD not set"), [])) ∧
    (∀ a g ns u p, env "NACOS_ADDR" = some a → env "NACOS_GROUP" = some g →
      env "NACOS_NAMESPACE" = some ns → env "NACOS_USERNAME" = some u →
      env "NACOS_PASSWORD" = some p → ("ENC(".data.isPrefixOf p.data) = true →
      env "KMS_KEY_ID" = none →
      from_nacos env kms nacos =
        (.error (.EnvVarError "KMS_KEY_ID not set"), [])) ∧
    (∀ a g ns u p pw deffs, env "NACOS_ADDR" = some a →
      env "NACOS_GROUP" = some g → env "NACOS_NAMESPACE" = some ns →
      env "NACOS_USERNAME" = some u → env "NACOS_PASSWORD" = some p →
      decrypt_password env kms p = (.ok pw, deffs) →
      env "NACOS_DATA_ID" = none →
      from_nacos env kms nacos =
        (.error (.EnvVarError "NACOS_DATA_ID not set"), deffs) ∧
      ∀ eff ∈ deffs, eff = .kmsClientConstructed ∨
        ∃ k b, eff = .kmsDecryptSent k b) := by
  refine ⟨?_, ?_, ?_, ?_, ?_, ?_, ?_⟩
  · intro h; simp [from_nacos, h]
  · intro a h1 h2; simp [from_nacos, h1, h2]
  · intro a g h1 h2 h3; simp [from_nacos, h1, h2, h3]
  · intro a g ns h1 h2 h3 h4; simp [from_nacos, h1, h2, h3, h4]
  · intro a g ns u h1 h2 h3 h4 h5; simp [from_nacos, h1, h2, h3, h4, h5]
  · intro a g ns u p h1 h2 h3 h4 h5 henc hkey
    simp [from_nacos, h1, h2, h3, h4, h5, decrypt_password, henc, hkey]
  · intro a g ns u p pw deffs h1 h2 h3 h4 h5 hdec h7
    refine ⟨by simp [from_nacos, h1, h2, h3, h4, h5, hdec, h7], ?_⟩
    intro eff heff
    rcases decrypt_password_effects env kms p with he | ⟨k, b, he⟩ <;>
      rw [hdec] at he <;> simp at he
    · rw [he] at heff; simp at heff
    · rw [he] at heff
      simp at heff
      rcases heff with h | h
      · exact Or.inl h
      · exact Or.inr ⟨k, b, h⟩

/-- Witness for the amended C4: each conjunct at a concrete environment;
the last one shows the `NACOS_DATA_ID` error arriving with the KMS effects
already recorded. -/
theorem c4_env_error_ordering_witness :
    from_nacos (fun _ => none) kmsC4 nacosC4 =
      (.error (.EnvVarError "NACOS_ADDR not set"), []) ∧
    from_nacos (fun k => if k = "NACOS_ADDR" then some "a" else none)
        kmsC4 nacosC4 =
      (.error (.EnvVarError "NACOS_GROUP not set"), []) ∧
    from_nacos
        (fun k => if k = "NACOS_ADDR" then some "a"
          else if k = "NACOS_GROUP" then some "g" else none) kmsC4 nacosC4 =
      (.error (.EnvVarError "NACOS_NAMESPACE not set"), []) ∧
    from_nacos
        (fun k => if k = "NACOS_ADDR" then some "a"
          else if k = "NACOS_GROUP" then some "g"
          else if k = "NACOS_NAMESPACE" then some "ns" else none) kmsC4 nacosC4 =
      (.error (.EnvVarError "NACOS_USERNAME not set"), []) ∧
    from_nacos
        (fun k => if k = "NACOS_ADDR" then some "a"
          else if k = "NACOS_GROUP" then some "g"
          else if k = "NACOS_NAMESPACE" then some "ns"
          else if k = "NACOS_USERNAME" then some "u" else none) kmsC4 nacosC4 =
      (.error (.EnvVarError "NACOS_PASSWORD not set"), []) ∧
    from_nacos
        (fun k => if k = "NACOS_ADDR" then some "a"
          else if k = "NACOS_GROUP" then some "g"
          else if k = "NACOS_NAMESPACE" then some "ns"
          else if k = "NACOS_USERNAME" then some "u"
          else if k = "NACOS_PASSWORD" then some "ENC(QUJD)" else none)
        kmsC4 nacosC4 =
      (.error (.EnvVarError "KMS_KEY_ID not set"), []) ∧
    (from_nacos envC4 kmsC4 nacosC4 =
      (.error (.EnvVarError "NACOS_DATA_ID not set"),
       [.kmsClientConstructed, .kmsDecryptSent "key-1" [65, 66, 67]]) ∧
     ∀ eff ∈ ([.kmsClientConstructed,
        .kmsDecryptSent "key-1" [65, 66, 67]] : List Effect),
       eff = .kmsClientConstructed ∨ ∃ k b, eff = .kmsDecryptSent k b) :=
  ⟨(c4_env_error_ordering String (fun _ => none) kmsC4 nacosC4).1 rfl,
   (c4_env_error_ordering String _ kmsC4 nacosC4).2.1 "a" rfl rfl,
   (c4_env_error_ordering String _ kmsC4 nacosC4).2.2.1 "a" "g" rfl rfl rfl,
   (c4_env_error_ordering String _ kmsC4 nacosC4).2.2.2.1 "a" "g" "ns"
     rfl rfl rfl rfl,
   (c4_env_error_ordering String _ kmsC4 nacosC4).2.2.2.2.1 "a" "g" "ns" "u"
     rfl rfl rfl rfl rfl,
   (c4_env_error_ordering String _ kmsC4 nacosC4).2.2.2.2.2.1 "a" "g" "ns" "u"
     "ENC(QUJD)" rfl rfl rfl rfl rfl (by decide) rfl,
   (c4_env_error_ordering String envC4 kmsC4 nacosC4).2.2.2.2.2.2 "localhost:8848"
     "DEFAULT_GROUP" "ns1" "u" "ENC(QUJD)" "pw"
     [.kmsClientConstructed, .kmsDecryptSent "key-1" [65, 66, 67]]
     rfl rfl rfl rfl rfl rfl rfl⟩

theorem base64_msg_contains (raw e : String) :
    contains_sub raw.data
      (NacosError.display (.Base64DecodeError
        ("Failed to decode base64: " ++ raw ++ ": " ++ e))).data :=
  ⟨"Base64 decoding error: ".data ++ "Failed to decode base64: ".data,
   (": " ++ e).data,
   by simp [NacosError.display, string_data_append, List.append_assoc]⟩

/-- Claim C6: a password starting with `ENC(` whose stripped payload is
not valid base64 yields a `Base64DecodeError` whose displayed message
contains the offending payload, with an empty effect list — no KMS client
construction, no decrypt request. -/
theorem c6_invalid_base64 (env : String → Option String)
    (kms : String → List Nat → KmsOutcome) (p key e : String)
    (h1 : ("ENC(".data.isPrefixOf p.data) = true)
    (h2 : env "KMS_KEY_ID" = some key)
    (h3 : base64Decode (stripEncStr p).data = .error e) :
    decrypt_password env kms p =
      (.error (.Base64DecodeError
        ("Failed to decode base64: " ++ stripEncStr p ++ ": " ++ e)), []) ∧
    contains_sub (stripEncStr p).data
      (NacosError.display (.Base64DecodeError
        ("Failed to decode base64: " ++ stripEncStr p ++ ": " ++ e))).data := by
  constructor
  · simp [decrypt_password, h1, h2, get_blob, h3]
  · exact base64_msg_contains _ _

/-- Witness for C6 at `ENC(!!!!)`: the payload `!!!!` is rejected by the
decoder and shows up verbatim in the error message. -/
theorem c6_invalid_base64_witness :
    decrypt_password (fun k => if k = "KMS_KEY_ID" then some "key-1" else none)
        kmsC4 "ENC(!!!!)" =
      (.error (.Base64DecodeError
        ("Failed to decode base64: " ++ stripEncStr "ENC(!!!!)" ++ ": " ++
          "Invalid byte 33, offset 0.")), []) ∧
    contains_sub (stripEncStr "ENC(!!!!)").data
      (NacosError.display (.Base64DecodeError
        ("Failed to decode base64: " ++ stripEncStr "ENC(!!!!)" ++ ": " ++
          "Invalid byte 33, offset 0."))).data :=
  c6_invalid_base64 (fun k => if k = "KMS_KEY_ID" then some "key-1" else none)
    kmsC4 "ENC(!!!!)" "key-1" "Invalid byte 33, offset 0." (by decide) rfl rfl

/-- Everything an error message of the pipeline can be built from apart
from the stripped password payload: fixed text, the environment's
non-password settings, and collaborator-reported diagnostics. The
`Base64DecodeError` constructor is deliberately excluded — it is the one
message constructed from the password. -/
def nonSecretMsg {T : Type} (env : String → Option String)
    (kms : String → List Nat → KmsOutcome) (nacos : NacosOracle T) :
    NacosError → Prop
  | .EnvVarError m => m ∈ ["NACOS_ADDR not set", "NACOS_GROUP not set",
      "NACOS_NAMESPACE not set", "NACOS_USERNAME not set",
      "NACOS_PASSWORD not set", "KMS_KEY_ID not set", "NACOS_DATA_ID not set"]
  | .KmsError m => m = "Failed to get plaintext from kms's response" ∨
      ∃ k b e, kms k b = .failed e ∧
        m = "Failed to decrypt blob from kms: " ++ e
  | .Utf8Error m => ∃ q, m = "Could not convert to UTF-8: " ++ utf8ErrDisplay q
  | .NacosConnectionError m => ∃ a e, env "NACOS_ADDR" = some a ∧
      nacos.build = .error e ∧
      m = "Failed to create ConfigServiceBuilder for nacos: " ++
        normalize_addr a ++ ": " ++ e
  | .NacosConfigError m =>
      m ∈ ["nacos_namespace unmatched", "nacos_data_id unmatched",
        "nacos_group unmatched", "ConfigResponse md5 unmatched"] ∨
      ∃ d g e, env "NACOS_DATA_ID" = some d ∧ env "NACOS_GROUP" = some g ∧
        nacos.getConfig d g = .error e ∧
        m = "Failed to get config from nacos, data_id: " ++ d ++
          ", group: " ++ g ++ ": " ++ e
  | .ConfigParseError m => ∃ d g resp e, nacos.getConfig d g = .ok resp ∧
      nacos.parse resp.content = .error e ∧
      m = "Failed to parse config from nacos: " ++ resp.content ++ ": " ++ e
  | .Base64DecodeError _ => False

/-- Claim C9 (amended): every error a `from_nacos` run returns either is
the `Base64DecodeError` — whose message does embed the stripped `ENC(`
payload of the password — or carries a message drawn from `nonSecretMsg`,
i.e. built only from fixed text, non-password settings, numeric UTF-8
positions, and collaborator diagnostics; in particular never from the
decrypted plaintext. -/
theorem c9_error_message_sources {T : Type} (env : String → Option String)
    (kms : String → List Nat → KmsOutcome) (nacos : NacosOracle T)
    (err : NacosError) (effs : List Effect)
    (h : from_nacos env kms nacos = (.error err, effs)) :
    (∃ p e, env "NACOS_PASSWORD" = some p ∧
      err = .Base64DecodeError
        ("Failed to decode base64: " ++ stripEncStr p ++ ": " ++ e) ∧
      contains_sub (stripEncStr p).data (NacosError.display err).data) ∨
    nonSecretMsg env kms nacos err := by
  rcases from_nacos_inversion env kms nacos _ _ h with
    ⟨_, hr, _⟩ | ⟨_, hr, _⟩ | ⟨_, hr, _⟩ | ⟨_, hr, _⟩ | ⟨_, hr, _⟩ |
    ⟨p, err', hP, hdec, hr⟩ | ⟨p, pw, _, _, _, hr⟩ |
    ⟨a, p, pw, deffs, e, hA, _, _, hB, hr, _⟩ |
    ⟨a, p, pw, deffs, d, g, e, _, hG, _, hI, _, hF, hr, _⟩ |
    ⟨a, p, pw, deffs, d, g, ns, resp, verr, _, _, _, _, _, _, hF, hV, hr, _⟩ |
    ⟨a, p, pw, deffs, d, g, resp, e, _, _, _, _, _, hF, hR, hr, _⟩ |
    ⟨a, p, pw, deffs, d, g, v, _, _, _, _, _, hr, _⟩
  · injection hr with hr'; subst hr'; exact Or.inr (by simp [nonSecretMsg])
  · injection hr with hr'; subst hr'; exact Or.inr (by simp [nonSecretMsg])
  · injection hr with hr'; subst hr'; exact Or.inr (by simp [nonSecretMsg])
  · injection hr with hr'; subst hr'; exact Or.inr (by simp [nonSecretMsg])
  · injection hr with hr'; subst hr'; exact Or.inr (by simp [nonSecretMsg])
  · injection hr with hr'; subst hr'
    rcases decrypt_password_error_cases env kms p err effs hdec with
      hc | ⟨e, hc⟩ | ⟨k, b, e, hk, hc⟩ | hc | ⟨q, hc⟩
    · subst hc; exact Or.inr (by simp [nonSecretMsg])
    · subst hc; exact Or.inl ⟨p, e, hP, rfl, base64_msg_contains _ _⟩
    · subst hc; exact Or.inr (Or.inr ⟨k, b, e, hk, rfl⟩)
    · subst hc; exact Or.inr (Or.inl rfl)
    · subst hc; exact Or.inr ⟨q, rfl⟩
  · injection hr with hr'; subst hr'; exact Or.inr (by simp [nonSecretMsg])
  · injection hr with hr'; subst hr'
    exact Or.inr ⟨a, e, hA, hB, rfl⟩
  · injection hr with hr'; subst hr'
    exact Or.inr (Or.inr ⟨d, g, e, hI, hG, hF, rfl⟩)
  · injection hr with hr'; subst hr'
    rcases validate_config_error_cases ns d g resp err hV with
      hc | hc | hc | hc <;> subst hc <;> exact Or.inr (by simp [nonSecretMsg])
  · injection hr with hr'; subst hr'
    exact Or.inr ⟨d, g, resp, e, hF, hR, rfl⟩
  · exact absurd hr (by simp)

/-- Environment like `envC4` but with a password whose `ENC(` payload is
not valid base64, and with `NACOS_DATA_ID` set. -/
def envC9 : String → Option String := fun k =>
  if k = "NACOS_ADDR" then some "localhost:8848"
  else if k = "NACOS_GROUP" then some "DEFAULT_GROUP"
  else if k = "NACOS_NAMESPACE" then some "ns1"
  else if k = "NACOS_USERNAME" then some "u"
  else if k = "NACOS_PASSWORD" then some "ENC(!!!!)"
  else if k = "NACOS_DATA_ID" then some "app.json"
  else if k = "KMS_KEY_ID" then some "key-1"
  else none

/-- Counterexample to claim C9 as stated: with `NACOS_PASSWORD` equal to
`ENC(!!!!)` the pipeline returns a `Base64DecodeError` whose displayed
message contains `!!!!` — a substring of the password value (its stripped
`ENC(` payload). -/
theorem c9_payload_leak_counterexample :
    from_nacos envC9 kmsC4 nacosC4 =
      (.error (.Base64DecodeError
        "Failed to decode base64: !!!!: Invalid byte 33, offset 0."), []) ∧
    contains_sub "!!!!".data
      (NacosError.display (.Base64DecodeError
        "Failed to decode base64: !!!!: Invalid byte 33, offset 0.")).data ∧
    contains_sub "!!!!".data "ENC(!!!!)".data :=
  ⟨rfl,
   ⟨"Base64 decoding error: Failed to decode base64: ".data,
    ": Invalid byte 33, offset 0.".data, rfl⟩,
   ⟨"ENC(".data, [')'], rfl⟩⟩

/-- Witness for the amended C9 at a concrete failing run (every variable
absent): the returned `EnvVarError` is in the non-secret message family. -/
theorem c9_error_message_sources_witness :
    (∃ p e, (fun (_ : String) => (none : Option String)) "NACOS_PASSWORD" = some p ∧
      (NacosError.EnvVarError "NACOS_ADDR not set") = .Base64DecodeError
        ("Failed to decode base64: " ++ stripEncStr p ++ ": " ++ e) ∧
      contains_sub (stripEncStr p).data
        (NacosError.display (.EnvVarError "NACOS_ADDR not set")).data) ∨
    nonSecretMsg (fun _ => none) kmsC4 nacosC4
      (.EnvVarError "NACOS_ADDR not set") :=
  c9_error_message_sources (fun _ => none) kmsC4 nacosC4
    (.EnvVarError "NACOS_ADDR not set") [] rfl

end Nacos
